import Mathlib

set_option maxRecDepth 8000

deriving instance DecidableEq for Except

/-!
Verification of the payroll-progression extraction core (UFGD repository).

The repository holds two sibling scripts:
* `app.py` — the general variant: value columns J/N/S, data-row ranges
  13–63 and 71–121, dual output partitioning (`append_rows_for`,
  `process_sheet`, `process_sheet_dual`, `build_tables_and_counts_dual`);
* `texte.py` — the simple variant: row 13 only, value columns J/N
  (`process_sheet`, `build_table_from_ods`).

Both share character-identical helpers `col_to_index`, `get_cell` and
`parse_br_number`, which are therefore embedded once.

Modelling conventions:
* A loaded sheet (`pandas.read_excel(..., header=None)` result) is a
  `Grid` = list of rows of `Cell`s.  An empty in-grid cell is read by
  pandas as the float NaN; it is modelled as `Cell.absent`.  Out-of-range
  access yields the Python `None`, modelled as `Option.none`.
* Python floats are modelled as exact rationals.  Conversion of a decimal
  value to the nearest IEEE-754 binary64 value (what `float(...)` does)
  is modelled exactly by `toDouble` (round to 53 significant bits, ties
  to even; normal range assumed).  `str.strip` is modelled including the
  no-break space, the whitespace character relevant to this data.
* All arithmetic inside executable definitions is expressed through
  `mkRat` and integer operations so that every definition evaluates by
  kernel reduction.
-/

namespace UFGD

/-! ### Python string primitives (over `List Char`) -/

/-- Characters stripped by Python `str.strip()` (the ASCII whitespace
characters plus the no-break space U+00A0, the only non-ASCII whitespace
occurring in this data). -/
def pyWS (c : Char) : Bool :=
  c.toNat == 32 || c.toNat == 9 || c.toNat == 10 || c.toNat == 13 ||
    c.toNat == 11 || c.toNat == 12 || c.toNat == 160

/-- Python `str.strip()`. -/
def pyStripL (l : List Char) : List Char :=
  ((l.dropWhile pyWS).reverse.dropWhile pyWS).reverse

/-- Python `str.lower()` (ASCII, the only case the parser compares). -/
def pyLowerL (l : List Char) : List Char :=
  l.map Char.toLower

/-- Fuel-driven core of Python `str.replace(pat, rep)`: scan left to
right, replacing each non-overlapping occurrence of `pat`.  The fuel is
an upper bound on the scan steps; `pyReplaceL` supplies `s.length`. -/
def replaceGo : Nat → List Char → List Char → List Char → List Char
  | 0, _, _, s => s
  | _ + 1, _, _, [] => []
  | f + 1, pat, rep, c :: rest =>
    if pat ≠ [] ∧ (c :: rest).take pat.length = pat then
      rep ++ replaceGo f pat rep ((c :: rest).drop pat.length)
    else
      c :: replaceGo f pat rep rest

/-- Python `s.replace(pat, rep)` for a non-empty pattern. -/
def pyReplaceL (s pat rep : List Char) : List Char :=
  replaceGo s.length pat rep s

/-- Split a character list at every `'.'` (used to model the grammar
accepted by Python `float(...)`). -/
def splitDots : List Char → List (List Char)
  | [] => [[]]
  | c :: rest =>
    if c = '.' then [] :: splitDots rest
    else
      match splitDots rest with
      | [] => [[c]]
      | g :: gs => (c :: g) :: gs

/-- Numeric value of a digit string. -/
def digitsVal (l : List Char) : Nat :=
  l.foldl (fun a c => a * 10 + (c.toNat - 48)) 0

/-- Python `float(s)` on a string made only of digits, dots and minus
signs (the alphabet left after `parse_br_number`'s character filter):
an optional leading minus, then digits with at most one dot and at least
one digit.  Returns the exact decimal value; `none` models `ValueError`. -/
def pyFloatL (l : List Char) : Option ℚ :=
  let core : List Char → Option ℚ := fun body =>
    match splitDots body with
    | [i] =>
      if !i.isEmpty && i.all Char.isDigit then
        some (mkRat (digitsVal i) 1)
      else none
    | [i, f] =>
      if (!i.isEmpty || !f.isEmpty) && i.all Char.isDigit && f.all Char.isDigit then
        some (mkRat ((digitsVal i * 10 ^ f.length + digitsVal f : Nat) : Int) (10 ^ f.length))
      else none
    | _ => none
  match l with
  | '-' :: body => (core body).map (fun q => mkRat (-q.num) q.den)
  | _ => core l

/-! ### IEEE-754 binary64 rounding, modelled exactly on rationals -/

/-- Round-to-nearest, ties-to-even of the fraction `N / D` (`D ≠ 0`),
computed with floor division so it is correct for negative `N` too. -/
def rneZ (N : Int) (D : Nat) : Int :=
  let q0 := N.fdiv D
  let r := N.fmod D
  if 2 * r < (D : Int) then q0
  else if (D : Int) < 2 * r then q0 + 1
  else if q0 % 2 = 0 then q0 else q0 + 1

/-- Fuel-driven base-2 logarithm (structural recursion, so it reduces in
the kernel; fuel `n` dominates the recursion depth). -/
def natLog2F : Nat → Nat → Nat
  | 0, _ => 0
  | f + 1, n => if 2 ≤ n then natLog2F f (n / 2) + 1 else 0

/-- `⌊log₂ n⌋` for `n ≥ 1` (0 at 0). -/
def natLog2 (n : Nat) : Nat :=
  natLog2F n n

/-- `⌊log₂ (n / d)⌋` for `n, d ≥ 1`: estimate from the integer logs,
then correct by one if needed. -/
def ratFloorLog2 (n d : Nat) : Int :=
  let e0 : Int := (natLog2 n : Int) - (natLog2 d : Int)
  if 0 ≤ e0 then
    if d * 2 ^ e0.toNat ≤ n then e0 else e0 - 1
  else
    if d ≤ n * 2 ^ (-e0).toNat then e0 else e0 - 1

/-- The IEEE-754 binary64 value nearest to `q` (ties to even), as an
exact rational: round `|q|` to 53 significant bits at exponent
`⌊log₂ |q|⌋`.  Normal range is assumed (the pipeline's data is
human-scale currency).  This models Python's `float(...)` applied to an
exact decimal value. -/
def toDouble (q : ℚ) : ℚ :=
  if q.num = 0 then 0
  else
    let n := q.num.natAbs
    let d := q.den
    let e := ratFloorLog2 n d
    let m := (rneZ ((n : Int) * 2 ^ (52 - e).toNat) (d * 2 ^ (e - 52).toNat)).toNat
    let mval : Int := ((m * 2 ^ (e - 52).toNat : Nat) : Int)
    mkRat (if q.num < 0 then -mval else mval) (2 ^ (52 - e).toNat)

/-- CPython `round(x, 2)` on a float `x`: correctly round the exact
value of `x` to two decimal places, ties to even.  (CPython re-converts
the decimal result to a double; the claims only observe that result as a
decimal, so the exact decimal is kept.) -/
def pyRound2 (x : ℚ) : ℚ :=
  mkRat (rneZ (100 * x.num) x.den) 100

/-- `abs` on a rational, expressed through `mkRat` so it evaluates by
kernel reduction. -/
def qabs (q : ℚ) : ℚ :=
  mkRat (q.num.natAbs : Int) q.den

/-! ### Data model -/

/-- A raw cell value inside a loaded grid: `absent` is the NaN that
pandas substitutes for an empty cell; otherwise a text or a numeric
value. -/
inductive Cell where
  | absent : Cell
  | str : String → Cell
  | num : ℚ → Cell
deriving DecidableEq

/-- A Python float result: NaN or an ordinary value. -/
inductive PyF where
  | nan : PyF
  | val : ℚ → PyF
deriving DecidableEq

/-- A loaded sheet: list of rows of cells (`pandas` grids are
rectangular; short source rows arrive padded with `Cell.absent`). -/
abbrev Grid := List (List Cell)

/-- One assembled output row, with the nine fields both scripts emit, in
their common order. -/
structure Record where
  a13 : Option Cell
  b13 : Option Cell
  mes_ano : Option Cell
  rubrica : String
  rendimento : String
  sequencia : Option Cell
  valor : PyF
  justificativa : Option Cell
  documento_legal : Option Cell
deriving DecidableEq

/-! ### Shared helpers: `col_to_index`, `get_cell`, `parse_br_number` -/

/-- The loop of `col_to_index`: base-26 accumulation over the normalized
letters, raising (Python `ValueError`, message built from the normalized
string) at the first character outside `A`–`Z`. -/
def colIdxGo (orig : List Char) : List Char → Int → Except String Int
  | [], acc => .ok acc
  | ch :: rest, acc =>
    if 65 ≤ ch.toNat ∧ ch.toNat ≤ 90 then
      colIdxGo orig rest (acc * 26 + ((ch.toNat : Int) - 65 + 1))
    else
      .error ("Coluna inválida: " ++ String.mk orig)

/-- `col.strip().upper()`, the normalization `col_to_index` applies
first. -/
def normCol (s : String) : List Char :=
  (pyStripL s.data).map Char.toUpper

/-- `col_to_index(col)`: strip and uppercase, read the letters as a
base-26 numeral with digits 1–26, subtract one.  `Except.error` models
the raised `ValueError`. -/
def col_to_index (col : String) : Except String Int :=
  match colIdxGo (normCol col) (normCol col) 0 with
  | .ok idx => .ok (idx - 1)
  | .error e => .error e

/-- `df.iat[r, c]` wrapped in `try/except`: pandas positional access
accepts one negative wrap (Python negative indexing); any index outside
the grid raises, which `get_cell` converts to `None`.  The column count
used for the negative-column wrap is the grid's width (grids are
rectangular). -/
def cellAt (g : Grid) (r c : Int) : Option Cell :=
  let nr : Int := (List.length g : Int)
  let nc : Int := ((g.headD []).length : Int)
  let r₁ := if r < 0 then r + nr else r
  let c₁ := if c < 0 then c + nc else c
  if 0 ≤ r₁ ∧ 0 ≤ c₁ then
    (g[r₁.toNat]?).bind (fun row => row[c₁.toNat]?)
  else none

/-- `get_cell(df, col_letter, row_number)`: resolve the column letter
(the resolution error, if any, propagates — it is raised outside the
`try`), subtract one from the row number, and look the cell up, absent
when out of range. -/
def get_cell (g : Grid) (col : String) (row : Int) : Except String (Option Cell) :=
  match col_to_index col with
  | .ok c => .ok (cellAt g (row - 1) c)
  | .error e => .error e

/-- `get_cell` at a call site whose column letter is a valid literal
(`"A"`, `"B"`, `"C"`, `"J"`, `"N"`, `"S"` — resolution cannot fail
there). -/
def getc (g : Grid) (col : String) (row : Int) : Option Cell :=
  match get_cell g col row with
  | .ok v => v
  | .error _ => none

/-- `parse_br_number(v)`: `None` stays `None`; a float passes through
`float(v)` unchanged (NaN stays NaN); a text value is stripped, the
empty/`"nan"`/`"none"` literals are absent, then the currency marker,
spaces, no-break spaces, percent signs and dots are removed, the comma
becomes a dot, every character other than digits, dots and minus signs
is dropped, and the remainder goes through `float(...)` — whose result
Python represents as the nearest double (`toDouble`). -/
def parse_br_number (v : Option Cell) : Option PyF :=
  match v with
  | none => none
  | some .absent => some .nan
  | some (.num q) => some (.val q)
  | some (.str t) =>
    let s := pyStripL t.data
    if s.isEmpty || pyLowerL s = "nan".data || pyLowerL s = "none".data then
      none
    else
      let s₁ := pyReplaceL s ['R', '$'] []
      let s₂ := pyReplaceL s₁ ['r', '$'] []
      let s₃ := pyReplaceL s₂ [' '] []
      let s₄ := pyReplaceL s₃ [' '] []
      let s₅ := pyReplaceL s₄ ['%'] []
      let s₆ := pyReplaceL s₅ ['.'] []
      let s₇ := pyReplaceL s₆ [','] ['.']
      let s₈ := s₇.filter (fun c => c.isDigit || c == '.' || c == '-')
      match pyFloatL s₈ with
      | none => none
      | some q => some (.val (toDouble q))

/-! ### app.py specifics -/

/-- `not_blank(x)`: `x is not None and str(x).strip() != ""`.  Note that
`str(nan)` is the non-empty text `"nan"`, so an in-grid empty cell
(`Cell.absent`) counts as non-blank; a numeric value prints non-empty as
well; only `None` and whitespace-only text are blank. -/
def not_blank (x : Option Cell) : Bool :=
  match x with
  | none => false
  | some .absent => true
  | some (.num _) => true
  | some (.str t) => !(pyStripL t.data).isEmpty

/-- `to_amount(v)`: parse, take the absolute value, round to two decimal
places, and keep the result only when it is strictly positive (NaN fails
the `val > 0` comparison and yields `None`). -/
def to_amount (v : Option Cell) : Option ℚ :=
  match parse_br_number v with
  | none => none
  | some .nan => none
  | some (.val f) =>
    let val := pyRound2 (qabs f)
    if 0 < val then some val else none

namespace App

/-- The three candidate amounts of one data row, in the source's `J`,
`N`, `S` order. -/
def amounts (g : Grid) (rownum : Int) : List (Option ℚ) :=
  [to_amount (getc g "J" rownum), to_amount (getc g "N" rownum),
    to_amount (getc g "S" rownum)]

/-- `has_amount`: some value column of the row carries an amount. -/
def has_amount (g : Grid) (rownum : Int) : Bool :=
  (amounts g rownum).any Option.isSome

/-- `has_identity`: `not_blank(a) or not_blank(b)` for the row's `A` and
`B` cells. -/
def has_identity (g : Grid) (rownum : Int) : Bool :=
  not_blank (getc g "A" rownum) || not_blank (getc g "B" rownum)

/-- The record `append_rows_for` emits for one amount `q` of a row: the
row's identity cells, the sheet's shared metadata cells, the constant
rubric and income-type tags, and the amount. -/
def baseRecord (g : Grid) (rownum : Int) (q : ℚ) : Record :=
  { a13 := getc g "A" rownum
    b13 := getc g "B" rownum
    mes_ano := getc g "C" 5
    rubrica := "00001"
    rendimento := "r"
    sequencia := getc g "C" 6
    valor := .val q
    justificativa := getc g "C" 9
    documento_legal := getc g "C" 10 }

/-- `append_rows_for(df, out, rownum)` (the rows it appends, in order):
nothing unless some value column has an amount and `not_blank` accepts
an identity cell; otherwise one record per present amount, in `J`, `N`,
`S` order. -/
def append_rows_for (g : Grid) (rownum : Int) : List Record :=
  if has_amount g rownum && has_identity g rownum then
    ((amounts g rownum).filterMap id).map (baseRecord g rownum)
  else []

/-- `list(range(13, 64))` — data rows 13–63. -/
def rows1 : List Int :=
  (List.range 51).map (fun i => Int.ofNat (13 + i))

/-- `list(range(71, 122))` — data rows 71–121. -/
def rows2 : List Int :=
  (List.range 51).map (fun i => Int.ofNat (71 + i))

/-- `process_sheet(df)`: all records of rows 13–63 then 71–121. -/
def process_sheet (g : Grid) : List Record :=
  (rows1 ++ rows2).flatMap (append_rows_for g)

/-- `process_sheet_dual(df)`: the same scan, records routed to the
partition of their row range (13–63 first, 71–121 second). -/
def process_sheet_dual (g : Grid) : List Record × List Record :=
  (rows1.flatMap (append_rows_for g), rows2.flatMap (append_rows_for g))

end App

/-! ### texte.py specifics -/

namespace Texte

/-- Whether texte.py's guard `x is not None and x != 0` accepts a parse
result.  NaN compares unequal to zero in Python, so it passes. -/
def nzGuard : Option PyF → Bool
  | none => false
  | some .nan => true
  | some (.val q) => !decide (q = 0)

/-- `abs(float(x))` on a parse result (NaN stays NaN). -/
def pyAbs : PyF → PyF
  | .nan => .nan
  | .val q => .val (qabs q)

/-- The record texte.py's `process_sheet` emits for one accepted value
`f` of row 13. -/
def row13Record (g : Grid) (f : PyF) : Record :=
  { a13 := getc g "A" 13
    b13 := getc g "B" 13
    mes_ano := getc g "C" 5
    rubrica := "00001"
    rendimento := "r"
    sequencia := getc g "C" 6
    valor := pyAbs f
    justificativa := getc g "C" 9
    documento_legal := getc g "C" 10 }

/-- texte.py `process_sheet(df)`: one record for `J13` if it parses
non-`None` and non-zero, then one for `N13` likewise.  No identity
check and no rounding threshold. -/
def process_sheet (g : Grid) : List Record :=
  let j13 := parse_br_number (getc g "J" 13)
  let n13 := parse_br_number (getc g "N" 13)
  (match j13 with
    | some f => if nzGuard (some f) then [row13Record g f] else []
    | none => []) ++
  (match n13 with
    | some f => if nzGuard (some f) then [row13Record g f] else []
    | none => [])

end Texte

/-! ### Workbook pipelines -/

/-- The outcome of probing the source path: the file is missing, it
exists but the open-document reader cannot parse it, or it parses into
named sheet grids.  This models `os.path.exists` plus
`pandas.ExcelFile(..., engine="odf")`. -/
inductive FileState where
  | missing : FileState
  | unreadable : String → FileState
  | workbook : List (String × Grid) → FileState

/-- The typed pipeline failures: `SourceNotFoundError` (carrying the
path; Python `FileNotFoundError`) and `SourceOpenError` (carrying the
underlying cause; Python `RuntimeError` raised `from` the cause). -/
inductive PipeError where
  | sourceNotFound : String → PipeError
  | sourceOpen : String → PipeError
deriving DecidableEq

/-- The result of `build_tables_and_counts_dual`: all records, the
per-sheet `(name, count)` pairs in sheet order, and the two partition
tables. -/
structure DualTables where
  all_rows : List Record
  details : List (String × Nat)
  all_ufgd : List Record
  all_hu : List Record
deriving DecidableEq

/-- `build_tables_and_counts_dual(file_path)`: fail if the path is
missing, fail wrapping the cause if the reader cannot parse it, else
run `process_sheet_dual` over every sheet in file order, accumulating
rows, per-sheet counts and the two partitions. -/
def build_tables_and_counts_dual (fs : String → FileState) (path : String) :
    Except PipeError DualTables :=
  match fs path with
  | .missing => .error (.sourceNotFound path)
  | .unreadable cause => .error (.sourceOpen cause)
  | .workbook sheets =>
    .ok (sheets.foldl
      (fun acc sh =>
        let parts := App.process_sheet_dual sh.2
        { all_rows := acc.all_rows ++ parts.1 ++ parts.2
          details := acc.details ++ [(sh.1, parts.1.length + parts.2.length)]
          all_ufgd := acc.all_ufgd ++ parts.1
          all_hu := acc.all_hu ++ parts.2 })
      ⟨[], [], [], []⟩)

/-- texte.py `build_table_from_ods(file_path)`: same probing, then all
sheets' records concatenated in file order. -/
def build_table_from_ods (fs : String → FileState) (path : String) :
    Except PipeError (List Record) :=
  match fs path with
  | .missing => .error (.sourceNotFound path)
  | .unreadable cause => .error (.sourceOpen cause)
  | .workbook sheets => .ok (sheets.flatMap (fun sh => Texte.process_sheet sh.2))

/-! ### Spec-side predicates (used to state the claims verbatim) -/

/-- The specification's notion of a non-blank identity cell: present and,
after trimming surrounding whitespace, non-empty.  An in-grid empty cell
(`Cell.absent`, pandas NaN) is not present, so it is blank here. -/
def specNonBlank : Option Cell → Bool
  | some (.str t) => !(pyStripL t.data).isEmpty
  | some (.num _) => true
  | _ => false

/-- The specification's value gate for one cell: its parsed value exists
and its absolute value rounds, at two decimal places, to strictly more
than zero. -/
def specAmountPos (v : Option Cell) : Bool :=
  match parse_br_number v with
  | some (.val q) => decide (0 < pyRound2 (qabs q))
  | _ => false

/-- The claimed row-inclusion condition: some configured value column
passes the rounding gate and some identity cell is non-blank in the
specification's sense. -/
def specRowCond (g : Grid) (r : Int) : Bool :=
  (specAmountPos (getc g "J" r) || specAmountPos (getc g "N" r) ||
      specAmountPos (getc g "S" r)) &&
    (specNonBlank (getc g "A" r) || specNonBlank (getc g "B" r))

/-- A Python comparison `65 ≤ ord(ch) ≤ 90`, the column-letter check. -/
def isColChar (ch : Char) : Bool :=
  decide (65 ≤ ch.toNat) && decide (ch.toNat ≤ 90)

/-! ### Concrete grids used by witnesses and counterexamples -/

/-- A fully empty 19-column row (wide enough to reach column `S`). -/
def emptyRow : List Cell :=
  List.replicate 19 Cell.absent

/-- A row whose only populated cell is column `C`. -/
def metaRow (v : Cell) : List Cell :=
  [Cell.absent, Cell.absent, v] ++ List.replicate 16 Cell.absent

/-- A data row with identity cells `A`, `B` and value cell `J`. -/
def dataRowJ (a b j : Cell) : List Cell :=
  [a, b] ++ List.replicate 7 Cell.absent ++ [j] ++ List.replicate 9 Cell.absent

/-- A data row with identity cells `A`, `B` and value cells `J`, `N`. -/
def dataRowJN (a b j n : Cell) : List Cell :=
  [a, b] ++ List.replicate 7 Cell.absent ++ [j] ++
    List.replicate 3 Cell.absent ++ [n] ++ List.replicate 5 Cell.absent

/-- The spec's end-to-end example sheet: metadata in column `C` of rows
5, 6, 9, 10, and one populated data row 13. -/
def sampleGrid : Grid :=
  [emptyRow, emptyRow, emptyRow, emptyRow,
    metaRow (.str "2025-01"), metaRow (.str "SEQ1"),
    emptyRow, emptyRow,
    metaRow (.str "justif"), metaRow (.str "doc1"),
    emptyRow, emptyRow,
    dataRowJ (.str "Jane") (.str "Doe") (.str "100,00")]

/-- The single record `sampleGrid` yields (from row 13, column `J`). -/
def sampleRec : Record :=
  { a13 := some (.str "Jane")
    b13 := some (.str "Doe")
    mes_ano := some (.str "2025-01")
    rubrica := "00001"
    rendimento := "r"
    sequencia := some (.str "SEQ1")
    valor := .val 100
    justificativa := some (.str "justif")
    documento_legal := some (.str "doc1") }

/-- A sheet whose row 13 has one populated identity cell, and amounts in
exactly two of the three value columns. -/
def gridC2 : Grid :=
  List.replicate 12 emptyRow ++
    [dataRowJN (.str "Jane") (.str "") (.str "10,00") (.str "20,00")]

/-- A sheet whose row 13 has an amount in `J` but both identity cells
empty (pandas delivers NaN for them). -/
def gridC1a : Grid :=
  List.replicate 12 emptyRow ++ [dataRowJ .absent .absent (.str "100,00")]

/-- A sheet whose row 13 has an identity but a `J` value of `0,001`,
which rounds to `0.00` at two decimal places. -/
def gridC1t : Grid :=
  List.replicate 12 emptyRow ++ [dataRowJ (.str "Jane") .absent (.str "0,001")]

/-- A filesystem oracle under which the source path opens into a
one-sheet workbook. -/
def wbFS : String → FileState :=
  fun _ => .workbook [("Plan1", sampleGrid)]

/-- A filesystem oracle under which the source path does not exist. -/
def missFS : String → FileState :=
  fun _ => .missing

/-! ### Helper lemmas -/

/-- Collapsing the `Option`s of a list is empty exactly when no element
is `some`. -/
theorem filterMap_id_isEmpty {α : Type} (l : List (Option α)) :
    (l.filterMap id).isEmpty = !l.any Option.isSome := by
  induction l with
  | nil => rfl
  | cons h t ih =>
    cases h with
    | none => simpa [List.filterMap_cons] using ih
    | some a => simp [List.filterMap_cons]

/-- Mapping preserves emptiness. -/
theorem isEmpty_map {α β : Type} (f : α → β) (l : List α) :
    (l.map f).isEmpty = l.isEmpty := by
  cases l <;> rfl

/-- `Char.ofNat` really stores `n` for code points below the surrogate
range (all characters this development manipulates). -/
theorem char_toNat_ofNat (n : Nat) (h : n < 55296) :
    (Char.ofNat n).toNat = n := by
  have hv : n.isValidChar := Or.inl h
  rw [Char.ofNat, dif_pos hv]
  rfl

/-- `toLower` on an uppercase letter adds 32. -/
theorem toLower_of_upper (c : Char) (h : 65 ≤ c.toNat ∧ c.toNat ≤ 90) :
    Char.toLower c = Char.ofNat (c.toNat + 32) := by
  unfold Char.toLower
  exact if_pos h

/-- `toLower` leaves every non-uppercase character unchanged. -/
theorem toLower_of_not_upper (c : Char) (h : ¬(65 ≤ c.toNat ∧ c.toNat ≤ 90)) :
    Char.toLower c = c := by
  unfold Char.toLower
  exact if_neg h

/-- `toUpper` on a lowercase letter subtracts 32. -/
theorem toUpper_of_lower (c : Char) (h : 97 ≤ c.toNat ∧ c.toNat ≤ 122) :
    Char.toUpper c = Char.ofNat (c.toNat - 32) := by
  unfold Char.toUpper
  exact if_pos h

/-- `toUpper` leaves every non-lowercase character unchanged. -/
theorem toUpper_of_not_lower (c : Char) (h : ¬(97 ≤ c.toNat ∧ c.toNat ≤ 122)) :
    Char.toUpper c = c := by
  unfold Char.toUpper
  exact if_neg h

/-- Lowercasing first does not change the final uppercased character. -/
theorem toUpper_toLower (c : Char) : (Char.toLower c).toUpper = c.toUpper := by
  by_cases h : 65 ≤ c.toNat ∧ c.toNat ≤ 90
  · rw [toLower_of_upper c h]
    have ht : (Char.ofNat (c.toNat + 32)).toNat = c.toNat + 32 :=
      char_toNat_ofNat _ (by omega)
    rw [toUpper_of_lower _ (by rw [ht]; omega), toUpper_of_not_lower c (by omega), ht]
    have h32 : c.toNat + 32 - 32 = c.toNat := by omega
    rw [h32, Char.ofNat_toNat]
  · rw [toLower_of_not_upper c h]

/-- Lowercasing does not change whether a character is whitespace. -/
theorem pyWS_toLower (c : Char) : pyWS (Char.toLower c) = pyWS c := by
  by_cases h : 65 ≤ c.toNat ∧ c.toNat ≤ 90
  · rw [toLower_of_upper c h]
    have ht : (Char.ofNat (c.toNat + 32)).toNat = c.toNat + 32 :=
      char_toNat_ofNat _ (by omega)
    have h1 : pyWS (Char.ofNat (c.toNat + 32)) = false := by
      simp only [pyWS, ht, Bool.or_eq_false_iff, beq_eq_false_iff_ne]
      omega
    have h2 : pyWS c = false := by
      simp only [pyWS, Bool.or_eq_false_iff, beq_eq_false_iff_ne]
      omega
    rw [h1, h2]
  · rw [toLower_of_not_upper c h]

/-- Stripping commutes with lowercasing. -/
theorem pyStripL_map_toLower (l : List Char) :
    pyStripL (l.map Char.toLower) = (pyStripL l).map Char.toLower := by
  have hp : pyWS ∘ Char.toLower = pyWS := funext pyWS_toLower
  unfold pyStripL
  rw [List.dropWhile_map, hp, ← List.map_reverse, List.dropWhile_map, hp,
    ← List.map_reverse]

/-- The normalized column letters of a lowercased string coincide with
those of the original string. -/
theorem normCol_map_toLower (l : List Char) :
    (pyStripL (l.map Char.toLower)).map Char.toUpper =
      (pyStripL l).map Char.toUpper := by
  rw [pyStripL_map_toLower, List.map_map]
  have : Char.toUpper ∘ Char.toLower = Char.toUpper := funext toUpper_toLower
  rw [this]

/-- `colIdxGo` fails whenever some character fails the letter check. -/
theorem colIdxGo_error (orig : List Char) :
    ∀ (l : List Char) (acc : Int), l.all isColChar = false →
      ∃ m, colIdxGo orig l acc = .error m := by
  intro l
  induction l with
  | nil => intro acc h; simp at h
  | cons ch rest ih =>
    intro acc h
    by_cases hch : 65 ≤ ch.toNat ∧ ch.toNat ≤ 90
    · have hrest : rest.all isColChar = false := by
        have hc : isColChar ch = true := by
          simp only [isColChar, Bool.and_eq_true, decide_eq_true_eq]
          exact ⟨hch.1, hch.2⟩
        simpa [List.all_cons, hc] using h
      obtain ⟨m, hm⟩ := ih _ hrest
      refine ⟨m, ?_⟩
      rw [colIdxGo, if_pos hch]
      exact hm
    · refine ⟨"Coluna inválida: " ++ String.mk orig, ?_⟩
      rw [colIdxGo, if_neg hch]

/-- Removing dots leaves no dot behind (the fuel dominates the length). -/
theorem replaceGo_removes_dots :
    ∀ (f : Nat) (l : List Char), l.length ≤ f →
      (replaceGo f ['.'] [] l).all (fun c => c != '.') = true := by
  intro f
  induction f with
  | zero =>
    intro l hl
    have h0 : l = [] := List.length_eq_zero.mp (Nat.le_zero.mp hl)
    subst h0; rfl
  | succ f ih =>
    intro l hl
    match l with
    | [] => rfl
    | c :: rest =>
      by_cases hc : c = '.'
      · subst hc
        rw [replaceGo, if_pos ⟨by simp, by simp⟩]
        simpa using ih rest (by simpa using hl)
      · rw [replaceGo, if_neg (fun hand => hc (by simpa using hand.2))]
        simp only [List.all_cons, Bool.and_eq_true, bne_iff_ne]
        exact ⟨hc, ih rest (by simpa using Nat.le_of_succ_le_succ (by simpa using hl))⟩

/-! ### The claims -/

/-- Claim C1 (amended).  In the general variant, `append_rows_for`
produces records for a row exactly when some value column's amount
passes `to_amount` (absolute value rounding to two decimals strictly
above zero) and the code's `not_blank` accepts an identity cell — where
an out-of-range cell is blank, a text cell is blank exactly when it
trims to empty, but an in-grid empty cell (read as NaN) and any numeric
cell count as non-blank.  The simple variant applies neither gate: its
row yields records exactly when a value cell parses to something other
than Python `None` and `0` (NaN included), with no rounding threshold
and no identity requirement. -/
theorem C1_row_inclusion :
    (∀ (g : Grid) (r : Int),
      (App.append_rows_for g r).isEmpty =
        !(App.has_amount g r && App.has_identity g r)) ∧
    (∀ g : Grid,
      (Texte.process_sheet g).isEmpty =
        !(Texte.nzGuard (parse_br_number (getc g "J" 13)) ||
          Texte.nzGuard (parse_br_number (getc g "N" 13)))) := by
  constructor
  · intro g r
    simp only [App.append_rows_for]
    by_cases h : (App.has_amount g r && App.has_identity g r) = true
    · rw [if_pos h, h, isEmpty_map, filterMap_id_isEmpty]
      have h' := h
      simp only [Bool.and_eq_true] at h'
      rw [show (App.amounts g r).any Option.isSome = true from h'.1]
    · rw [if_neg h]
      rw [Bool.not_eq_true] at h
      rw [h]
      rfl
  · intro g
    simp only [Texte.process_sheet]
    rcases hj : parse_br_number (getc g "J" 13) with _ | fj <;>
      rcases hn : parse_br_number (getc g "N" 13) with _ | fn
    · rfl
    · cases hgn : Texte.nzGuard (some fn) <;>
        simp [hgn, show Texte.nzGuard none = false from rfl]
    · cases hgj : Texte.nzGuard (some fj) <;>
        simp [hgj, show Texte.nzGuard none = false from rfl]
    · cases hgj : Texte.nzGuard (some fj) <;>
        cases hgn : Texte.nzGuard (some fn) <;> simp [hgj, hgn]

/-- Claim C1, counterexample to the claim as stated: a row whose two
identity cells are both blank (empty cells, hence not "present and
non-empty after trimming") but whose `J` value is `100,00` still yields
a record in the general variant; and a row whose `J` value `0,001`
rounds to `0.00` (and whose `N` cell is empty, parsing to NaN) yields
two records in the simple variant.  In both grids the claimed inclusion
condition is false, yet records are produced. -/
theorem C1_row_inclusion_counterexample :
    ((App.append_rows_for gridC1a 13).length = 1 ∧
      specRowCond gridC1a 13 = false) ∧
    ((Texte.process_sheet gridC1t).length = 2 ∧
      specRowCond gridC1t 13 = false) :=
  ⟨⟨by with_unfolding_all rfl, by with_unfolding_all rfl⟩,
    ⟨by with_unfolding_all rfl, by with_unfolding_all rfl⟩⟩

/-- Claim C2 (confirmed).  For a row passing the inclusion gates, the
evaluator emits exactly one record per value column whose amount is
present (same count, and the `valor` fields are exactly those amounts in
`J`, `N`, `S` order), and all records agree with the row's identity and
the sheet's metadata on every other field. -/
theorem C2_one_record_per_amount (g : Grid) (r : Int)
    (h : (App.has_amount g r && App.has_identity g r) = true) :
    (App.append_rows_for g r).length = ((App.amounts g r).filterMap id).length ∧
    (App.append_rows_for g r).map Record.valor =
      ((App.amounts g r).filterMap id).map PyF.val ∧
    ∀ rec ∈ App.append_rows_for g r,
      rec.a13 = getc g "A" r ∧ rec.b13 = getc g "B" r ∧
      rec.mes_ano = getc g "C" 5 ∧ rec.rubrica = "00001" ∧
      rec.rendimento = "r" ∧ rec.sequencia = getc g "C" 6 ∧
      rec.justificativa = getc g "C" 9 ∧ rec.documento_legal = getc g "C" 10 := by
  simp only [App.append_rows_for, if_pos h]
  refine ⟨by rw [List.length_map], ?_, ?_⟩
  · rw [List.map_map]
    rfl
  · intro rec hrec
    obtain ⟨q, hq, rfl⟩ := List.mem_map.1 hrec
    exact ⟨rfl, rfl, rfl, rfl, rfl, rfl, rfl, rfl⟩

/-- Claim C2, witness: a row with identity `A` populated (`B` an empty
string) and amounts in `J` and `N` only yields exactly two records whose
`valor` fields are the two amounts. -/
theorem C2_one_record_per_amount_witness :
    (App.append_rows_for gridC2 13).length = 2 ∧
    (App.append_rows_for gridC2 13).map Record.valor =
      [PyF.val 10, PyF.val 20] := by
  have h := C2_one_record_per_amount gridC2 13 (by with_unfolding_all rfl)
  exact ⟨h.1.trans (by with_unfolding_all rfl),
    h.2.1.trans (by with_unfolding_all rfl)⟩

/-- Claim C3 (confirmed).  `to_amount` returns absent when the parsed
value is `0`, absent when it is the double nearest `-0.004` (which
rounds to `0.00`), and `12.35` when it is the double nearest `-12.345`
(absolute value, rounded — the double nearest `12.345` lies above the
tie, so CPython rounds up). -/
theorem C3_to_amount_threshold :
    (∀ v, parse_br_number v = some (.val 0) → to_amount v = none) ∧
    (∀ v, parse_br_number v = some (.val (toDouble (mkRat (-4) 1000))) →
      to_amount v = none) ∧
    (∀ v, parse_br_number v = some (.val (toDouble (mkRat (-12345) 1000))) →
      to_amount v = some (mkRat 1235 100)) := by
  refine ⟨fun v h => ?_, fun v h => ?_, fun v h => ?_⟩
  all_goals unfold to_amount
  all_goals rw [h]
  all_goals with_unfolding_all rfl

/-- Claim C3, witness: the three threshold behaviours at concrete input
strings. -/
theorem C3_to_amount_threshold_witness :
    to_amount (some (Cell.str "0")) = none ∧
    to_amount (some (Cell.str "-0,004")) = none ∧
    to_amount (some (Cell.str "-12,345")) = some (mkRat 1235 100) := by
  refine ⟨C3_to_amount_threshold.1 _ ?_, C3_to_amount_threshold.2.1 _ ?_,
    C3_to_amount_threshold.2.2 _ ?_⟩ <;> with_unfolding_all rfl

/-- Claim C4 (confirmed).  The parser's sample values: `"1.234,56"` maps
to the double nearest `1234.56` (the value Python prints and compares as
`1234.56`); `"R$ 50,00"` to `50`; whitespace-only and `"nan"` (any
case) to absent; the numeric `42` to `42`; `"-10,5"` to `-10.5`. -/
theorem C4_parser_values :
    parse_br_number (some (Cell.str "1.234,56")) =
      some (.val (toDouble (mkRat 123456 100))) ∧
    parse_br_number (some (Cell.str "R$ 50,00")) = some (.val 50) ∧
    parse_br_number (some (Cell.str "  ")) = none ∧
    parse_br_number (some (Cell.str "nan")) = none ∧
    parse_br_number (some (Cell.str "NaN")) = none ∧
    parse_br_number (some (Cell.num 42)) = some (.val 42) ∧
    parse_br_number (some (Cell.str "-10,5")) = some (.val (mkRat (-21) 2)) := by
  refine ⟨?_, ?_, ?_, ?_, ?_, ?_, ?_⟩ <;> with_unfolding_all rfl

/-- Claim C5 (confirmed).  For a resolvable column letter (index `c ≥ 0`)
and a 1-based row number, `get_cell` never raises: it returns exactly
the in-bounds lookup, which is the absent marker when the row or column
index falls outside the grid and the raw stored cell value otherwise. -/
theorem C5_get_cell_total (g : Grid) (col : String) (row c : Int)
    (hc : col_to_index col = .ok c) (h0 : 0 ≤ c) (h1 : 1 ≤ row) :
    get_cell g col row =
      .ok ((g[(row - 1).toNat]?).bind (fun cells => cells[c.toNat]?)) ∧
    (g.length ≤ (row - 1).toNat → get_cell g col row = .ok none) ∧
    (∀ cells, g[(row - 1).toNat]? = some cells → cells.length ≤ c.toNat →
      get_cell g col row = .ok none) ∧
    (∀ cells v, g[(row - 1).toNat]? = some cells → cells[c.toNat]? = some v →
      get_cell g col row = .ok (some v)) := by
  have key : get_cell g col row =
      .ok ((g[(row - 1).toNat]?).bind (fun cells => cells[c.toNat]?)) := by
    simp only [get_cell, hc]
    congr 1
    simp only [cellAt]
    rw [if_neg (by omega : ¬(row - 1 < 0)), if_neg (by omega : ¬(c < 0)),
      if_pos ⟨by omega, h0⟩]
  refine ⟨key, ?_, ?_, ?_⟩
  · intro h
    rw [key, List.getElem?_eq_none h]
    rfl
  · intro cells hcells hlen
    rw [key, hcells]
    simp [List.getElem?_eq_none hlen]
  · intro cells v hcells hv
    rw [key, hcells]
    simp [hv]

/-- Claim C5, witness: on the sample grid, `B13` is the stored name and
`B999` (far outside the 13 loaded rows) is absent, with no error in
either case. -/
theorem C5_get_cell_total_witness :
    get_cell sampleGrid "B" 13 = .ok (some (Cell.str "Doe")) ∧
    get_cell sampleGrid "B" 999 = .ok none := by
  refine ⟨(C5_get_cell_total sampleGrid "B" 13 1 (by with_unfolding_all rfl)
      (by decide) (by decide)).2.2.2
      (dataRowJ (.str "Jane") (.str "Doe") (.str "100,00")) (Cell.str "Doe")
      (by with_unfolding_all rfl) (by with_unfolding_all rfl),
    (C5_get_cell_total sampleGrid "B" 999 1 (by with_unfolding_all rfl)
      (by decide) (by decide)).2.1 (by with_unfolding_all decide)⟩

/-- Claim C6 (confirmed).  The resolver maps single letters `A`–`Z` to
`0`–`25` in order, `"AA"` to `26`, is insensitive to lowercasing, and
raises (the `ValueError` modelling `InvalidColumnError`) whenever the
stripped, uppercased input contains a character outside `A`–`Z`. -/
theorem C6_col_to_index_letters :
    (∀ n < 26, col_to_index (String.mk [Char.ofNat (65 + n)]) = .ok (n : Int)) ∧
    col_to_index "AA" = .ok 26 ∧
    (∀ s : String, col_to_index (String.mk (s.data.map Char.toLower)) =
      col_to_index s) ∧
    (∀ s : String, (normCol s).all isColChar = false →
      ∃ m, col_to_index s = .error m) := by
  refine ⟨by with_unfolding_all decide, by with_unfolding_all rfl, ?_, ?_⟩
  · intro s
    unfold col_to_index
    have hn : normCol (String.mk (s.data.map Char.toLower)) = normCol s := by
      unfold normCol
      exact normCol_map_toLower s.data
    rw [hn]
  · intro s h
    obtain ⟨m, hm⟩ := colIdxGo_error (normCol s) (normCol s) 0 h
    refine ⟨m, ?_⟩
    unfold col_to_index
    rw [hm]

/-- Claim C6, witness: the letter `C` (code 67 = 65 + 2) resolves to
index 2, and `"A1"` raises. -/
theorem C6_col_to_index_letters_witness :
    col_to_index (String.mk [Char.ofNat 67]) = .ok 2 ∧
    ∃ m, col_to_index "A1" = .error m :=
  ⟨C6_col_to_index_letters.1 2 (by decide),
    C6_col_to_index_letters.2.2.2 "A1" (by with_unfolding_all rfl)⟩

/-- Claim C7 (confirmed).  Every record of the first partition of
`process_sheet_dual` originates from a data row between 13 and 63, and
every record of the second partition from a data row between 71 and
121; no partition receives records scanned from the other range. -/
theorem C7_partition_rows (g : Grid) :
    (∀ rec ∈ (App.process_sheet_dual g).1,
      ∃ r, 13 ≤ r ∧ r ≤ 63 ∧ rec ∈ App.append_rows_for g r) ∧
    (∀ rec ∈ (App.process_sheet_dual g).2,
      ∃ r, 71 ≤ r ∧ r ≤ 121 ∧ rec ∈ App.append_rows_for g r) := by
  constructor
  · intro rec hrec
    simp only [App.process_sheet_dual, App.rows1] at hrec
    obtain ⟨r, hr, hm⟩ := List.mem_flatMap.1 hrec
    obtain ⟨i, hi, rfl⟩ := List.mem_map.1 hr
    rw [List.mem_range] at hi
    exact ⟨Int.ofNat (13 + i), by rw [Int.ofNat_eq_coe]; omega,
      by rw [Int.ofNat_eq_coe]; omega, hm⟩
  · intro rec hrec
    simp only [App.process_sheet_dual, App.rows2] at hrec
    obtain ⟨r, hr, hm⟩ := List.mem_flatMap.1 hrec
    obtain ⟨i, hi, rfl⟩ := List.mem_map.1 hr
    rw [List.mem_range] at hi
    exact ⟨Int.ofNat (71 + i), by rw [Int.ofNat_eq_coe]; omega,
      by rw [Int.ofNat_eq_coe]; omega, hm⟩

/-- Claim C7, witness: the sample record lands in the first partition
and indeed originates from a row in 13–63 (namely row 13). -/
theorem C7_partition_rows_witness :
    ∃ r, 13 ≤ r ∧ r ≤ 63 ∧ sampleRec ∈ App.append_rows_for sampleGrid r :=
  (C7_partition_rows sampleGrid).1 sampleRec (by with_unfolding_all decide)

/-- Claim C8 (confirmed).  Both pipelines fail with `SourceNotFoundError`
exactly when the path is missing, fail with `SourceOpenError` wrapping
the underlying cause exactly when the path exists but the reader cannot
parse it, and otherwise return their assembled output without raising. -/
theorem C8_pipeline_failures (fs : String → FileState) (path : String) :
    (build_tables_and_counts_dual fs path = .error (.sourceNotFound path) ↔
      fs path = .missing) ∧
    (∀ cause, build_tables_and_counts_dual fs path = .error (.sourceOpen cause) ↔
      fs path = .unreadable cause) ∧
    (∀ sheets, fs path = .workbook sheets →
      ∃ out, build_tables_and_counts_dual fs path = .ok out) ∧
    (build_table_from_ods fs path = .error (.sourceNotFound path) ↔
      fs path = .missing) ∧
    (∀ cause, build_table_from_ods fs path = .error (.sourceOpen cause) ↔
      fs path = .unreadable cause) ∧
    (∀ sheets, fs path = .workbook sheets →
      ∃ out, build_table_from_ods fs path = .ok out) := by
  cases h : fs path <;>
    simp [build_tables_and_counts_dual, build_table_from_ods, h]

/-- Claim C8, witness: a parseable one-sheet workbook returns a result,
and a missing path fails with `SourceNotFoundError` carrying the path. -/
theorem C8_pipeline_failures_witness :
    (∃ out, build_tables_and_counts_dual wbFS "entrada.ods" = .ok out) ∧
    build_tables_and_counts_dual missFS "entrada.ods" =
      .error (.sourceNotFound "entrada.ods") :=
  ⟨(C8_pipeline_failures wbFS "entrada.ods").2.2.1 [("Plan1", sampleGrid)] rfl,
    (C8_pipeline_failures missFS "entrada.ods").1.mpr rfl⟩

/-- Claim C9 (confirmed).  The undivided sheet processor equals the
concatenation of the two partitions of the dual processor: partitioning
re-routes the same records in the same order. -/
theorem C9_dual_refines_single (g : Grid) :
    App.process_sheet g =
      (App.process_sheet_dual g).1 ++ (App.process_sheet_dual g).2 := by
  simp [App.process_sheet, App.process_sheet_dual]

/-- Claim C10 (confirmed).  On text input every dot is removed before
parsing — the text `"1234.56"` parses to `123456`, not `1234.56` — the
dot-removal stage provably leaves no dot behind, and an already-numeric
input passes through unchanged (there the dot of the original literal
acted as a decimal separator). -/
theorem C10_dot_thousands :
    parse_br_number (some (Cell.str "1234.56")) = some (.val 123456) ∧
    (∀ q : ℚ, parse_br_number (some (Cell.num q)) = some (.val q)) ∧
    (∀ s : List Char, (pyReplaceL s ['.'] []).all (fun c => c != '.') = true) :=
  ⟨by with_unfolding_all rfl, fun _ => rfl,
    fun s => replaceGo_removes_dots s.length s (Nat.le_refl _)⟩

end UFGD
